import Mathlib

/-
Shallow embedding of src/etbay.py.

Modelling conventions:
* Python numbers (the results of the builtin float) are idealised as exact
  rationals; machine floating point rounding is not modelled.
* The network layer is abstracted: each extractor receives the outcome of its
  fetch_url call as an argument of type Except FetchError _.  A transport
  failure (requests.RequestException, which the bounded-retry decorator
  re-raises after the final attempt) is the error case; the success case
  carries the already-decoded body.  For eBay the body is the list of
  listing blocks that BeautifulSoup finds (div.s-item__info, in document
  order), each block recording the outcome of the four sub-queries the code
  performs on it.  For Etsy the body is the decoded JSON value.
* Python exceptions that escape or are caught by the extraction code are
  modelled by the PyError type threaded through Except.
-/

/-- The Python exception classes that the extraction code can raise or catch. -/
inductive PyError where
  | attrError
  | typeError
  | keyError
  | valueError
deriving DecidableEq, Repr

/-- A transport-level failure: a requests.RequestException surviving the
bounded retry inside fetch_url. -/
inductive FetchError where
  | requestException
deriving DecidableEq, Repr

/-- A decoded JSON value, as produced by response.json().  Python ints and
floats are both idealised as exact rationals. -/
inductive Json where
  | null
  | bool (b : Bool)
  | num (q : ℚ)
  | str (s : String)
  | arr (elems : List Json)
  | obj (fields : List (String × Json))

/-- Leading digits of a character list, with the remainder. -/
def takeDigits : List Char → List Char × List Char
  | [] => ([], [])
  | c :: cs =>
    if c.isDigit then
      let (d, r) := takeDigits cs
      (c :: d, r)
    else ([], c :: cs)

/-- Numeric value of a digit string. -/
def digitsToNat (ds : List Char) : Nat :=
  ds.foldl (fun n c => 10 * n + (c.toNat - 48)) 0

/-- The whitespace characters str.strip and the float builtin ignore. -/
def pyWhitespace (c : Char) : Bool :=
  c == ' ' || c == '\t' || c == '\n' || c == '\r' || c == '\x0b' || c == '\x0c'

/-- Python str.strip with no argument: surrounding whitespace removed. -/
def pyStrip (s : String) : String :=
  String.mk (((s.toList.dropWhile pyWhitespace).reverse.dropWhile pyWhitespace).reverse)

/-- Python str.replace with a one-character pattern and the empty
replacement, as in line 75: every occurrence of the character is removed. -/
def pyRemoveChar (c : Char) (s : String) : String :=
  String.mk (s.toList.filter (fun x => x != c))

/-- Unsigned mantissa of a float literal: digits, optionally with a decimal
point, needing at least one digit overall.  Returns the digit value, the
count of fractional digits and the unread remainder. -/
def parseMantissa (cs : List Char) : Option (Nat × Nat × List Char) :=
  let (ip, r1) := takeDigits cs
  match r1 with
  | '.' :: r2 =>
    let (fp, r3) := takeDigits r2
    if ip.isEmpty && fp.isEmpty then none
    else some (digitsToNat (ip ++ fp), fp.length, r3)
  | _ => if ip.isEmpty then none else some (digitsToNat ip, 0, r1)

/-- An optionally signed decimal exponent, which must use the whole input. -/
def parseExponent (cs : List Char) : Option Int :=
  let (sgn, cs1) : Int × List Char :=
    match cs with
    | '+' :: r => (1, r)
    | '-' :: r => (-1, r)
    | r => (1, r)
  match takeDigits cs1 with
  | (d, []) => if d.isEmpty then none else some (sgn * (digitsToNat d : Int))
  | _ => none

/-- The rational n * 10 ^ e / 10 ^ frac, assembled with integer arithmetic. -/
def ratScaled (n : Int) (frac : Nat) (e : Int) : ℚ :=
  match e with
  | .ofNat k => mkRat (n * (10 : Int) ^ k) ((10 : Nat) ^ frac)
  | .negSucc k => mkRat n ((10 : Nat) ^ frac * (10 : Nat) ^ (k + 1))

/-- The Python builtin float applied to a string: surrounding whitespace is
ignored, then an optional sign, a decimal mantissa and an optional exponent
are accepted.  (The special spellings inf and nan, and digit-group
underscores, have no rational value and are outside this model; no claim
touches them.)  Returns none where float raises ValueError. -/
def pyFloat? (s : String) : Option ℚ :=
  let cs := (pyStrip s).toList
  let (neg, cs1) : Bool × List Char :=
    match cs with
    | '+' :: r => (false, r)
    | '-' :: r => (true, r)
    | r => (false, r)
  match parseMantissa cs1 with
  | none => none
  | some (n, frac, rest) =>
    let signed : Int := if neg then -(n : Int) else (n : Int)
    match rest with
    | [] => some (mkRat signed ((10 : Nat) ^ frac))
    | 'e' :: r => (parseExponent r).map (fun e => ratScaled signed frac e)
    | 'E' :: r => (parseExponent r).map (fun e => ratScaled signed frac e)
    | _ => none

/-- One eBay listing block: a div.s-item__info element, recording the result
of each of the four sub-queries find_ebay_items performs on it.
titleText is the text of the h3.s-item__title node when that node exists;
priceText the text of span.s-item__price when it exists; link is none when
the a.s-item__link node is absent, some none when the node exists but has no
href attribute; subtitleText the text of div.s-item__subtitle when present. -/
structure EbayBlock where
  titleText : Option String
  priceText : Option String
  link : Option (Option String)
  subtitleText : Option String
deriving DecidableEq, Repr

/-- The dict find_ebay_items appends for one accepted listing. -/
structure EbayItem where
  title : String
  price : String
  link : String
  description : String
deriving DecidableEq, Repr

/-- Field extraction for one eBay block, lines 73-77 of etbay.py: title text
(AttributeError when the title node is missing, caught by the handler on
line 86, so the block is skipped with a warning), then the numeric price
(float of the text with the dollar sign and commas removed; an unparseable
text raises ValueError, which the handler does not catch), then the href
(a missing link node raises TypeError, a missing href attribute KeyError,
neither caught), then the subtitle with default N/A.  Returns the record
together with the numeric price used by the ceiling test; none means the
block was skipped by the caught AttributeError. -/
def ebayParseBlock (b : EbayBlock) : Except PyError (Option (EbayItem × Option ℚ)) :=
  match b.titleText with
  | none => .ok none
  | some t =>
    let priceDisplay := match b.priceText with
      | some pt => pt
      | none => "N/A"
    let priceNum : Except PyError (Option ℚ) :=
      match b.priceText with
      | none => .ok none
      | some pt =>
        match pyFloat? (pyRemoveChar ',' (pyRemoveChar '$' pt)) with
        | some p => .ok (some p)
        | none => .error .valueError
    match priceNum with
    | .error e => .error e
    | .ok p? =>
      match b.link with
      | none => .error .typeError
      | some none => .error .keyError
      | some (some href) =>
        let descr := match b.subtitleText with
          | some d => pyStrip d
          | none => "N/A"
        .ok (some (⟨pyStrip t, priceDisplay, href, descr⟩, p?))

/-- The ceiling test on line 79 of etbay.py:
max_price is None or (price is not None and price <= max_price). -/
def ebayInclude (maxPrice : Option ℚ) (price : Option ℚ) : Bool :=
  match maxPrice with
  | none => true
  | some m =>
    match price with
    | none => false
    | some p => decide (p ≤ m)

/-- One iteration of the for loop in find_ebay_items: parse the block, then
append the record when the ceiling test passes.  The value some r means r was
appended, none that the block was skipped (either by the caught
AttributeError or by the ceiling test); an error is an uncaught exception. -/
def processEbayBlock (maxPrice : Option ℚ) (b : EbayBlock) : Except PyError (Option EbayItem) :=
  match ebayParseBlock b with
  | .error e => .error e
  | .ok none => .ok none
  | .ok (some (r, p?)) => .ok (if ebayInclude maxPrice p? then some r else none)

/-- The whole for loop of find_ebay_items over the blocks in document order.
An uncaught exception at any block aborts the loop, so nothing is returned
in that case. -/
def ebayLoop (maxPrice : Option ℚ) : List EbayBlock → Except PyError (List EbayItem)
  | [] => .ok []
  | b :: bs =>
    match processEbayBlock maxPrice b with
    | .error e => .error e
    | .ok none => ebayLoop maxPrice bs
    | .ok (some r) =>
      match ebayLoop maxPrice bs with
      | .error e => .error e
      | .ok rs => .ok (r :: rs)

/-- find_ebay_items, lines 61-90 of etbay.py.  The first argument records the
ambient ETSY_API_KEY environment variable; the body never reads it (the
source function consults no environment variable), the parameter only makes
that independence statable.  A transport failure is caught by the
except requests.RequestException handler and yields the empty list. -/
def find_ebay_items (_etsyApiKeyEnv : Option String)
    (fetched : Except FetchError (List EbayBlock)) (maxPrice : Option ℚ) :
    Except PyError (List EbayItem) :=
  match fetched with
  | .error _ => .ok []
  | .ok blocks => ebayLoop maxPrice blocks

/-- Lookup in a JSON object, first binding wins. -/
def jlookup (fs : List (String × Json)) (k : String) : Option Json :=
  (fs.find? (fun f => f.1 == k)).map (fun f => f.2)

/-- The dict.get method with a default: item.get(key, default).  On a value
that is not a dict the attribute access itself raises AttributeError. -/
def pyDictGetD : Json → String → Json → Except PyError Json
  | .obj fs, k, d => .ok ((jlookup fs k).getD d)
  | _, _, _ => .error .attrError

/-- Python iteration over a JSON value, for the loop header
for item in data.get('results', []): lists yield their elements, strings
their one-character substrings, dicts their keys; other values raise
TypeError. -/
def pyIter : Json → Except PyError (List Json)
  | .arr xs => .ok xs
  | .str s => .ok (s.toList.map (fun c => .str (String.singleton c)))
  | .obj fs => .ok (fs.map (fun f => .str f.1))
  | _ => .error .typeError

/-- The comparison price != 'N/A' on line 115, negated: a JSON value equals
the string N/A exactly when it is that string. -/
def pyIsNAStr : Json → Bool
  | .str s => s == "N/A"
  | _ => false

/-- The Python builtin float applied to a JSON value: numbers are returned,
strings are parsed as float literals (ValueError on failure), booleans count
as 0 or 1, and other values raise TypeError. -/
def pyFloatJson : Json → Except PyError ℚ
  | .num q => .ok q
  | .str s =>
    match pyFloat? s with
    | some q => .ok q
    | none => .error .valueError
  | .bool b => .ok (if b then 1 else 0)
  | _ => .error .typeError

mutual

/-- An idealised Python repr of a JSON value, used only to build the display
price string.  Numeric rendering is idealised along with the numbers
themselves, and string quoting and escaping inside containers are elided;
no claim depends on the rendering of a non-string price. -/
def pyRepr : Json → String
  | .null => "None"
  | .bool b => if b then "True" else "False"
  | .num q => if q.den == 1 then toString q.num else toString q
  | .str s => s
  | .arr xs => "[" ++ String.intercalate ", " (pyReprList xs) ++ "]"
  | .obj fs => "\x7b" ++ String.intercalate ", " (pyReprFields fs) ++ "\x7d"

def pyReprList : List Json → List String
  | [] => []
  | x :: xs => pyRepr x :: pyReprList xs

def pyReprFields : List (String × Json) → List String
  | [] => []
  | (k, v) :: fs => (k ++ ": " ++ pyRepr v) :: pyReprFields fs

end

/-- The str conversion inside the f-string on line 118. -/
def pyStr (j : Json) : String := pyRepr j

/-- The record find_etsy_items appends for one accepted result: the raw
title, url and description JSON values and the formatted price string. -/
structure EtsyItem where
  title : Json
  price : String
  link : Json
  description : Json

/-- Field extraction for one Etsy result, lines 110-113 of etbay.py: the
four item.get calls with their N/A defaults.  A result element that is not
a dict raises AttributeError at the first get; that class is not named by
the except (TypeError, ValueError) handler, so it escapes. -/
def etsyParseItem (it : Json) : Except PyError (Json × Json × Json × Json) :=
  match pyDictGetD it "title" (.str "N/A") with
  | .error e => .error e
  | .ok title =>
    match pyDictGetD it "price" (.str "N/A") with
    | .error e => .error e
    | .ok price =>
      match pyDictGetD it "url" (.str "N/A") with
      | .error e => .error e
      | .ok link =>
        match pyDictGetD it "description" (.str "N/A") with
        | .error e => .error e
        | .ok descr => .ok (title, price, link, descr)

/-- The ceiling test on line 115 of etbay.py:
max_price is None or (price != 'N/A' and float(price) <= max_price).
The float call can raise TypeError or ValueError; it is only reached when a
ceiling was supplied and the price is not the N/A string. -/
def etsyInclude (maxPrice : Option ℚ) (price : Json) : Except PyError Bool :=
  match maxPrice with
  | none => .ok true
  | some m =>
    if pyIsNAStr price then .ok false
    else
      match pyFloatJson price with
      | .ok p => .ok (decide (p ≤ m))
      | .error e => .error e

/-- One iteration of the for loop in find_etsy_items: the item.get calls,
the ceiling test, and the append.  TypeError and ValueError raised by the
ceiling test are caught by the handler on line 122 and skip the item with a
warning; some r means r was appended, none that the item was skipped. -/
def processEtsyItem (maxPrice : Option ℚ) (it : Json) : Except PyError (Option EtsyItem) :=
  match etsyParseItem it with
  | .error e => .error e
  | .ok (title, price, link, descr) =>
    match etsyInclude maxPrice price with
    | .ok true => .ok (some ⟨title, "$" ++ pyStr price, link, descr⟩)
    | .ok false => .ok none
    | .error e =>
      if e == .typeError || e == .valueError then .ok none else .error e

/-- The whole for loop of find_etsy_items over the iterated results.  An
uncaught exception at any element aborts the loop. -/
def etsyLoop (maxPrice : Option ℚ) : List Json → Except PyError (List EtsyItem)
  | [] => .ok []
  | it :: its =>
    match processEtsyItem maxPrice it with
    | .error e => .error e
    | .ok none => etsyLoop maxPrice its
    | .ok (some r) =>
      match etsyLoop maxPrice its with
      | .error e => .error e
      | .ok rs => .ok (r :: rs)

/-- The expression data.get('results', []) followed by the loop header:
look the results sequence up in the payload (AttributeError when the payload
is not a dict and TypeError when the value is not iterable escape the
function, nothing catches them). -/
def etsyResults (data : Json) : Except PyError (List Json) :=
  match pyDictGetD data "results" (.arr []) with
  | .error e => .error e
  | .ok r => pyIter r

/-- Python truthiness of the api_key value on line 95: os.getenv returns
None when the variable is unset, and the empty string is also falsy. -/
def pyFalsyKey : Option String → Bool
  | none => true
  | some s => s == ""

/-- find_etsy_items, lines 93-126 of etbay.py.  The first argument is the
ETSY_API_KEY environment value; when it is falsy the function returns the
empty list at once, before the fetch outcome is ever examined.  A transport
failure is caught and yields the empty list. -/
def find_etsy_items (apiKey : Option String)
    (fetched : Except FetchError Json) (maxPrice : Option ℚ) :
    Except PyError (List EtsyItem) :=
  if pyFalsyKey apiKey then .ok []
  else
    match fetched with
    | .error _ => .ok []
    | .ok data =>
      match etsyResults data with
      | .error e => .error e
      | .ok elems => etsyLoop maxPrice elems

/-- One row of the listings table. -/
structure Row where
  platform : String
  title : String
  price : String
  link : String
  description : String
  notes : String
deriving DecidableEq, Repr

/-- The SQLite connection state held by DatabaseManager: rows already durable
in the store, rows written in the open transaction, and the log lines
emitted so far. -/
structure Session where
  committed : List Row
  pending : List Row
  log : List String
deriving DecidableEq, Repr

/-- conn.commit(): the pending writes of the transaction become durable. -/
def sessionCommit (s : Session) : Session :=
  { s with committed := s.committed ++ s.pending, pending := [] }

/-- DatabaseManager.save_to_database, lines 45-50: log, then INSERT the row
into the open transaction. -/
def save_to_database (r : Row) (s : Session) : Session :=
  { s with
    pending := s.pending ++ [r],
    log := s.log ++ ["Saving item " ++ r.title ++ " to the database."] }

/-- DatabaseManager.__exit__, lines 25-29: when an exception reached the
scope exit it is logged, then conn.commit() runs on either path, then the
connection is closed. -/
def databaseManagerExit (excOccurred : Bool) (s : Session) : Session :=
  let s1 :=
    if excOccurred then { s with log := s.log ++ ["Database operation failed"] }
    else s
  sessionCommit s1

/-- The schema side of the store: the tables that exist, each with its
column list, in creation order. -/
structure Database where
  tables : List (String × List String)
deriving DecidableEq, Repr

/-- An error raised by a CREATE TABLE statement. -/
inductive SqlError where
  | tableExists
deriving DecidableEq, Repr

/-- SQLite CREATE TABLE: with IF NOT EXISTS an existing table of the same
name makes the statement a no-op, otherwise it is an error; a fresh name
appends the table. -/
def sqliteCreateTable (ifNotExists : Bool) (name : String) (cols : List String)
    (db : Database) : Except SqlError Database :=
  if db.tables.any (fun t => t.1 == name) then
    if ifNotExists then .ok db else .error .tableExists
  else .ok ⟨db.tables ++ [(name, cols)]⟩

/-- The column list of the listings table, lines 34-42. -/
def listingsColumns : List String :=
  ["id", "platform", "title", "price", "link", "description", "notes"]

/-- DatabaseManager.setup_database, lines 31-43: CREATE TABLE IF NOT EXISTS
listings (...). -/
def setup_database (db : Database) : Except SqlError Database :=
  sqliteCreateTable true "listings" listingsColumns db

/-- Whether an Except value is a success, i.e. whether the modelled Python
call returns rather than raises. -/
def exceptOk {ε α : Type _} : Except ε α → Bool
  | .ok _ => true
  | .error _ => false

/-- Whether a JSON value is an object, i.e. a Python dict. -/
def Json.isObj : Json → Bool
  | .obj _ => true
  | _ => false

theorem processEbayBlock_titleNone {mp : Option ℚ} {b : EbayBlock}
    (h : b.titleText = none) : processEbayBlock mp b = .ok none := by
  simp [processEbayBlock, ebayParseBlock, h]

theorem processEbayBlock_some_iff_include {mp : Option ℚ} {b : EbayBlock}
    {r : EbayItem} {p? : Option ℚ} (hp : ebayParseBlock b = .ok (some (r, p?))) :
    processEbayBlock mp b = .ok (some r) ↔ ebayInclude mp p? = true := by
  unfold processEbayBlock
  rw [hp]
  by_cases hi : ebayInclude mp p? = true
  · simp [hi]
  · rw [Bool.not_eq_true] at hi
    simp [hi]

theorem processEbayBlock_some_exists {mp : Option ℚ} {b : EbayBlock} {r : EbayItem}
    (h : processEbayBlock mp b = .ok (some r)) :
    ∃ p?, ebayParseBlock b = .ok (some (r, p?)) ∧ ebayInclude mp p? = true := by
  unfold processEbayBlock at h
  cases hp : ebayParseBlock b with
  | error e => rw [hp] at h; simp at h
  | ok o =>
    rw [hp] at h
    cases o with
    | none => simp at h
    | some rp =>
      obtain ⟨r', q⟩ := rp
      by_cases hi : ebayInclude mp q = true
      · simp [hi] at h
        subst h
        exact ⟨q, rfl, hi⟩
      · rw [Bool.not_eq_true] at hi
        simp [hi] at h

theorem exceptOk_processEbayBlock (mp : Option ℚ) (b : EbayBlock) :
    exceptOk (processEbayBlock mp b) = exceptOk (ebayParseBlock b) := by
  unfold processEbayBlock
  cases ebayParseBlock b with
  | error e => rfl
  | ok o => cases o with
    | none => rfl
    | some rp => rfl

theorem ebayLoop_eq_filterMap {mp : Option ℚ} {bs : List EbayBlock}
    {items : List EbayItem} (h : ebayLoop mp bs = .ok items) :
    items = bs.filterMap (fun b =>
      match processEbayBlock mp b with
      | .ok r => r
      | .error _ => none) := by
  induction bs generalizing items with
  | nil =>
    simp only [ebayLoop] at h
    injection h with h
    simp [h.symm]
  | cons b bs ih =>
    simp only [ebayLoop] at h
    rw [List.filterMap_cons]
    cases hp : processEbayBlock mp b with
    | error e => rw [hp] at h; simp at h
    | ok r =>
      rw [hp] at h
      cases r with
      | none => exact ih h
      | some x =>
        cases hl : ebayLoop mp bs with
        | error e => rw [hl] at h; simp at h
        | ok rs =>
          rw [hl] at h
          injection h with h
          rw [← h, ← ih hl]
  
theorem exceptOk_ebayLoop (mp : Option ℚ) (bs : List EbayBlock) :
    exceptOk (ebayLoop mp bs) = bs.all (fun b => exceptOk (processEbayBlock mp b)) := by
  induction bs with
  | nil => rfl
  | cons b bs ih =>
    simp only [ebayLoop, List.all_cons]
    cases hp : processEbayBlock mp b with
    | error e => rfl
    | ok r =>
      cases r with
      | none => simpa [exceptOk] using ih
      | some x =>
        cases hl : ebayLoop mp bs with
        | error e => rw [hl] at ih; simpa [exceptOk] using ih
        | ok rs => rw [hl] at ih; simpa [exceptOk] using ih

theorem ebayParseBlock_title {b : EbayBlock} {r : EbayItem} {p? : Option ℚ}
    (h : ebayParseBlock b = .ok (some (r, p?))) :
    ∃ t, b.titleText = some t ∧ r.title = pyStrip t := by
  obtain ⟨ht, hpt, hl, hst⟩ := b
  cases ht with
  | none => simp [ebayParseBlock] at h
  | some t =>
    refine ⟨t, rfl, ?_⟩
    cases hpt with
    | none =>
      cases hl with
      | none => simp [ebayParseBlock] at h
      | some o =>
        cases o with
        | none => simp [ebayParseBlock] at h
        | some href =>
          simp [ebayParseBlock] at h
          rw [← h.1]
    | some pt =>
      cases hf : pyFloat? (pyRemoveChar ',' (pyRemoveChar '$' pt)) with
      | none => simp [ebayParseBlock, hf] at h
      | some p =>
        cases hl with
        | none => simp [ebayParseBlock, hf] at h
        | some o =>
          cases o with
          | none => simp [ebayParseBlock, hf] at h
          | some href =>
            simp [ebayParseBlock, hf] at h
            rw [← h.1]

theorem pyFloatJson_error {j : Json} {e : PyError} (h : pyFloatJson j = .error e) :
    e = .typeError ∨ e = .valueError := by
  cases j with
  | num q => simp [pyFloatJson] at h
  | str s =>
    cases hf : pyFloat? s with
    | some q => simp [pyFloatJson, hf] at h
    | none =>
      simp [pyFloatJson, hf] at h
      exact Or.inr h.symm
  | bool b => simp [pyFloatJson] at h
  | null => injection h with h; exact Or.inl h.symm
  | arr xs => injection h with h; exact Or.inl h.symm
  | obj fs => injection h with h; exact Or.inl h.symm

theorem etsyInclude_error {mp : Option ℚ} {price : Json} {e : PyError}
    (h : etsyInclude mp price = .error e) : e = .typeError ∨ e = .valueError := by
  unfold etsyInclude at h
  cases mp with
  | none => simp at h
  | some m =>
    by_cases hna : pyIsNAStr price = true
    · simp [hna] at h
    · rw [Bool.not_eq_true] at hna
      rw [hna] at h
      simp only [Bool.false_eq_true, if_false] at h
      cases hf : pyFloatJson price with
      | ok p => rw [hf] at h; simp at h
      | error e2 =>
        rw [hf] at h
        injection h with h
        exact h ▸ pyFloatJson_error hf

theorem etsyParseItem_obj (fs : List (String × Json)) :
    etsyParseItem (.obj fs) = .ok
      ((jlookup fs "title").getD (.str "N/A"),
       (jlookup fs "price").getD (.str "N/A"),
       (jlookup fs "url").getD (.str "N/A"),
       (jlookup fs "description").getD (.str "N/A")) := rfl

theorem exceptOk_etsyParseItem (it : Json) :
    exceptOk (etsyParseItem it) = it.isObj := by
  cases it <;> rfl

theorem processEtsyItem_some_iff_include {mp : Option ℚ} {it : Json}
    {t pr l d : Json} (hp : etsyParseItem it = .ok (t, pr, l, d)) :
    processEtsyItem mp it = .ok (some ⟨t, "$" ++ pyStr pr, l, d⟩) ↔
      etsyInclude mp pr = .ok true := by
  unfold processEtsyItem
  rw [hp]
  cases hi : etsyInclude mp pr with
  | ok bv =>
    cases bv with
    | true => simp [hi]
    | false => simp [hi]
  | error e =>
    rcases etsyInclude_error hi with he | he <;> subst he <;> simp [hi]

theorem processEtsyItem_some_exists {mp : Option ℚ} {it : Json} {r : EtsyItem}
    (h : processEtsyItem mp it = .ok (some r)) :
    ∃ fs, it = .obj fs ∧
      r.title = (jlookup fs "title").getD (.str "N/A") ∧
      r.price = "$" ++ pyStr ((jlookup fs "price").getD (.str "N/A")) ∧
      r.link = (jlookup fs "url").getD (.str "N/A") ∧
      r.description = (jlookup fs "description").getD (.str "N/A") := by
  unfold processEtsyItem at h
  cases it with
  | obj fs =>
    refine ⟨fs, rfl, ?_⟩
    rw [etsyParseItem_obj] at h
    cases hi : etsyInclude mp ((jlookup fs "price").getD (.str "N/A")) with
    | ok bv =>
      cases bv with
      | true =>
        simp only [hi] at h
        simp only [Except.ok.injEq, Option.some.injEq] at h
        rw [← h]
        exact ⟨rfl, rfl, rfl, rfl⟩
      | false => simp [hi] at h
    | error e =>
      rcases etsyInclude_error hi with he | he <;> subst he <;> simp [hi] at h
  | null => simp [etsyParseItem, pyDictGetD] at h
  | bool b => simp [etsyParseItem, pyDictGetD] at h
  | num q => simp [etsyParseItem, pyDictGetD] at h
  | str s => simp [etsyParseItem, pyDictGetD] at h
  | arr xs => simp [etsyParseItem, pyDictGetD] at h

theorem exceptOk_processEtsyItem (mp : Option ℚ) (it : Json) :
    exceptOk (processEtsyItem mp it) = exceptOk (etsyParseItem it) := by
  unfold processEtsyItem
  cases hp : etsyParseItem it with
  | error e => rfl
  | ok tpld =>
    obtain ⟨t, pr, l, d⟩ := tpld
    cases hi : etsyInclude mp pr with
    | ok bv => cases bv <;> simp [hi, exceptOk]
    | error e =>
      rcases etsyInclude_error hi with he | he <;> subst he <;> simp [hi, exceptOk]

theorem etsyLoop_eq_filterMap {mp : Option ℚ} {its : List Json}
    {items : List EtsyItem} (h : etsyLoop mp its = .ok items) :
    items = its.filterMap (fun it =>
      match processEtsyItem mp it with
      | .ok r => r
      | .error _ => none) := by
  induction its generalizing items with
  | nil =>
    simp only [etsyLoop] at h
    injection h with h
    simp [h.symm]
  | cons it its ih =>
    simp only [etsyLoop] at h
    rw [List.filterMap_cons]
    cases hp : processEtsyItem mp it with
    | error e => rw [hp] at h; simp at h
    | ok r =>
      rw [hp] at h
      cases r with
      | none => exact ih h
      | some x =>
        cases hl : etsyLoop mp its with
        | error e => rw [hl] at h; simp at h
        | ok rs =>
          rw [hl] at h
          injection h with h
          rw [← h, ← ih hl]

theorem exceptOk_etsyLoop (mp : Option ℚ) (its : List Json) :
    exceptOk (etsyLoop mp its) = its.all (fun it => exceptOk (processEtsyItem mp it)) := by
  induction its with
  | nil => rfl
  | cons it its ih =>
    simp only [etsyLoop, List.all_cons]
    cases hp : processEtsyItem mp it with
    | error e => rfl
    | ok r =>
      cases r with
      | none => simpa [exceptOk] using ih
      | some x =>
        cases hl : etsyLoop mp its with
        | error e => rw [hl] at ih; simpa [exceptOk] using ih
        | ok rs => rw [hl] at ih; simpa [exceptOk] using ih

theorem find_ebay_items_filterMap {k : Option String} {bs : List EbayBlock}
    {mp : Option ℚ} {items : List EbayItem}
    (h : find_ebay_items k (.ok bs) mp = .ok items) :
    items = bs.filterMap (fun b =>
      match processEbayBlock mp b with
      | .ok r => r
      | .error _ => none) :=
  ebayLoop_eq_filterMap h

theorem find_etsy_items_filterMap {k : Option String} {data : Json}
    {mp : Option ℚ} {items : List EtsyItem} (hk : pyFalsyKey k = false)
    (h : find_etsy_items k (.ok data) mp = .ok items) :
    ∃ elems, etsyResults data = .ok elems ∧
      items = elems.filterMap (fun it =>
        match processEtsyItem mp it with
        | .ok r => r
        | .error _ => none) := by
  unfold find_etsy_items at h
  rw [hk] at h
  simp only [Bool.false_eq_true, if_false] at h
  cases her : etsyResults data with
  | error e =>
    rw [her] at h
    exact Except.noConfusion h
  | ok elems =>
    rw [her] at h
    exact ⟨elems, rfl, etsyLoop_eq_filterMap h⟩

/-- The inclusion invariant exactly as section 3 of the specification words
it, for comparison with the behaviour of the code: a candidate passes when
its numeric price is absent or at most the ceiling. -/
def specPriceInvariant (maxPrice : Option ℚ) (priceNumeric : Option ℚ) : Bool :=
  match maxPrice with
  | none => true
  | some m =>
    match priceNumeric with
    | none => true
    | some p => decide (p ≤ m)

/-- C1, counterexample: the claimed invariant accepts a record whose numeric
price is absent under a supplied ceiling, but the eBay extractor excludes
such a record.  One block with a title and a link and no price node parses
successfully (third conjunct: with no ceiling it yields a record), the spec
predicate accepts it under ceiling 10 (first conjunct), yet the extraction
with ceiling 10 returns the empty list (second conjunct). -/
theorem c1_counterexample :
    specPriceInvariant (some 10) none = true
    ∧ find_ebay_items none
        (.ok [⟨some "Lamp", none, some (some "http://x/1"), none⟩]) (some 10) = .ok []
    ∧ find_ebay_items none
        (.ok [⟨some "Lamp", none, some (some "http://x/1"), none⟩]) none
        = .ok [⟨"Lamp", "N/A", "http://x/1", "N/A"⟩] :=
  ⟨rfl, rfl, rfl⟩

/-- C1 (amended): with no ceiling both extractors include every successfully
parsed record regardless of price; with a ceiling a record is included
exactly when its numeric price is present (for Etsy: not the N/A sentinel
and parseable) and at most the ceiling, so a record with an absent numeric
price is excluded.  Stated through the ceiling tests both loops use
(conjuncts 1-3 and 5-7), the bridge from each test to the per-item outcome
(4 and 8), and the fold of each whole extraction into a filterMap over the
parsed input (9 and 10). -/
theorem c1_price_ceiling :
    (∀ p? : Option ℚ, ebayInclude none p? = true)
    ∧ (∀ m : ℚ, ebayInclude (some m) none = false)
    ∧ (∀ m p : ℚ, ebayInclude (some m) (some p) = decide (p ≤ m))
    ∧ (∀ (mp : Option ℚ) (b : EbayBlock) (r : EbayItem) (p? : Option ℚ),
        ebayParseBlock b = .ok (some (r, p?)) →
        (processEbayBlock mp b = .ok (some r) ↔ ebayInclude mp p? = true))
    ∧ (∀ price : Json, etsyInclude none price = .ok true)
    ∧ (∀ m : ℚ, etsyInclude (some m) (.str "N/A") = .ok false)
    ∧ (∀ (m p : ℚ) (price : Json), pyIsNAStr price = false → pyFloatJson price = .ok p →
        etsyInclude (some m) price = .ok (decide (p ≤ m)))
    ∧ (∀ (mp : Option ℚ) (it t pr l d : Json), etsyParseItem it = .ok (t, pr, l, d) →
        (processEtsyItem mp it = .ok (some ⟨t, "$" ++ pyStr pr, l, d⟩) ↔
          etsyInclude mp pr = .ok true))
    ∧ (∀ (k : Option String) (mp : Option ℚ) (bs : List EbayBlock) (items : List EbayItem),
        find_ebay_items k (.ok bs) mp = .ok items →
        items = bs.filterMap (fun b =>
          match processEbayBlock mp b with
          | .ok r => r
          | .error _ => none))
    ∧ (∀ (k : Option String) (data : Json) (mp : Option ℚ) (items : List EtsyItem),
        pyFalsyKey k = false → find_etsy_items k (.ok data) mp = .ok items →
        ∃ elems, etsyResults data = .ok elems ∧
          items = elems.filterMap (fun it =>
            match processEtsyItem mp it with
            | .ok r => r
            | .error _ => none)) := by
  refine ⟨fun p? => rfl, fun m => rfl, fun m p => rfl,
    fun mp b r p? hp => processEbayBlock_some_iff_include hp,
    fun price => rfl, fun m => rfl, ?_,
    fun mp it t pr l d hp => processEtsyItem_some_iff_include hp,
    fun k mp bs items h => find_ebay_items_filterMap h,
    fun k data mp items hk h => find_etsy_items_filterMap hk h⟩
  intro m p price hna hf
  simp [etsyInclude, hna, hf]

/-- C1 witness: the amended theorem applied at a parsed eBay block with
price text 45.00 dollars under ceiling 50, and at a parsed Etsy result with
price 12 under ceiling 50; both are included. -/
theorem c1_price_ceiling_witness :
    processEbayBlock (some 50)
      ⟨some "Vintage Lamp", some "$45.00", some (some "http://x/1"), none⟩
      = .ok (some ⟨"Vintage Lamp", "$45.00", "http://x/1", "N/A"⟩)
    ∧ processEtsyItem (some 50)
        (.obj [("title", .str "Mug"), ("price", .str "12"), ("url", .str "http://y/2")])
        = .ok (some ⟨.str "Mug", "$12", .str "http://y/2", .str "N/A"⟩) :=
  ⟨(c1_price_ceiling.2.2.2.1 (some 50)
      ⟨some "Vintage Lamp", some "$45.00", some (some "http://x/1"), none⟩
      ⟨"Vintage Lamp", "$45.00", "http://x/1", "N/A"⟩
      (some (mkRat 4500 100)) rfl).mpr rfl,
   (c1_price_ceiling.2.2.2.2.2.2.2.1 (some 50)
      (.obj [("title", .str "Mug"), ("price", .str "12"), ("url", .str "http://y/2")])
      (.str "Mug") (.str "12") (.str "http://y/2") (.str "N/A") rfl).mpr rfl⟩

/-- C2: a listing block whose link node is missing aborts the whole
extraction rather than being skipped: the subscription of None raises a
TypeError that the except AttributeError handler does not cover, so one
malformed block followed by one well-formed block yields an uncaught error
and no records at all (first conjunct), although a block whose title node is
missing is skipped exactly as the claim describes (second conjunct). -/
theorem c2_missing_link_aborts :
    find_ebay_items none
      (.ok [⟨some "Widget", none, none, none⟩,
            ⟨some "Gadget", none, some (some "http://x/2"), none⟩]) none
      = .error .typeError
    ∧ find_ebay_items none
        (.ok [⟨none, none, some (some "http://x/2"), none⟩,
              ⟨some "Gadget", none, some (some "http://x/2"), none⟩]) none
        = .ok [⟨"Gadget", "N/A", "http://x/2", "N/A"⟩] :=
  ⟨rfl, rfl⟩

/-- C3, counterexample: a single well-formed-looking block whose price text
is a range, as eBay emits for multi-price listings, makes float raise a
ValueError that nothing catches, so the extraction function surfaces an
exception to its caller instead of a result. -/
theorem c3_counterexample :
    find_ebay_items none
      (.ok [⟨some "Lot", some "$10.00 to $20.00", some (some "http://x/3"), none⟩]) none
      = .error .valueError := rfl

/-- C3 (amended): transport failures never escape (conjuncts 1-2: both
extractors turn a fetch error into the empty list), and a block with a
missing title is skipped without effect on its siblings (3); but the
extraction layer only survives the anticipated per-item failures: the eBay
extraction succeeds exactly when every block parses without an uncaught
exception (4), an Etsy result element survives exactly when it is an object
(5), and the Etsy extraction as a whole succeeds exactly when the results
lookup and iteration succeed and every element is an object (6). -/
theorem c3_error_propagation :
    (∀ (k : Option String) (fe : FetchError) (mp : Option ℚ),
        find_ebay_items k (.error fe) mp = .ok [])
    ∧ (∀ (k : Option String) (fe : FetchError) (mp : Option ℚ),
        find_etsy_items k (.error fe) mp = .ok [])
    ∧ (∀ (k : Option String) (mp : Option ℚ) (b : EbayBlock) (bs : List EbayBlock),
        b.titleText = none →
        find_ebay_items k (.ok (b :: bs)) mp = find_ebay_items k (.ok bs) mp)
    ∧ (∀ (k : Option String) (mp : Option ℚ) (bs : List EbayBlock),
        exceptOk (find_ebay_items k (.ok bs) mp)
          = bs.all (fun b => exceptOk (ebayParseBlock b)))
    ∧ (∀ (mp : Option ℚ) (it : Json),
        exceptOk (processEtsyItem mp it) = it.isObj)
    ∧ (∀ (k : Option String) (data : Json) (mp : Option ℚ), pyFalsyKey k = false →
        exceptOk (find_etsy_items k (.ok data) mp)
          = (match etsyResults data with
             | .ok elems => elems.all Json.isObj
             | .error _ => false)) := by
  refine ⟨fun k fe mp => rfl, ?_, ?_, ?_, ?_, ?_⟩
  · intro k fe mp
    unfold find_etsy_items
    cases hk : pyFalsyKey k <;> simp
  · intro k mp b bs hb
    show ebayLoop mp (b :: bs) = ebayLoop mp bs
    simp only [ebayLoop]
    rw [processEbayBlock_titleNone hb]
  · intro k mp bs
    show exceptOk (ebayLoop mp bs) = _
    rw [exceptOk_ebayLoop]
    simp only [exceptOk_processEbayBlock]
  · intro mp it
    rw [exceptOk_processEtsyItem, exceptOk_etsyParseItem]
  · intro k data mp hk
    unfold find_etsy_items
    rw [hk]
    simp only [Bool.false_eq_true, if_false]
    cases her : etsyResults data with
    | error e => rfl
    | ok elems =>
      show exceptOk (etsyLoop mp elems) = _
      rw [exceptOk_etsyLoop]
      simp only [exceptOk_processEtsyItem, exceptOk_etsyParseItem]

/-- C3 witness: the amended theorem applied at a concrete missing-title
block (skipped, leaving only the sibling record) and at a concrete
non-object Etsy payload (the extraction does not succeed). -/
theorem c3_error_propagation_witness :
    find_ebay_items none
      (.ok [⟨none, some "$5", some (some "u"), none⟩,
            ⟨some "Gadget", none, some (some "g"), none⟩]) none
      = find_ebay_items none (.ok [⟨some "Gadget", none, some (some "g"), none⟩]) none
    ∧ exceptOk (find_etsy_items (some "key") (.ok (.str "oops")) none) = false :=
  ⟨c3_error_propagation.2.2.1 none none _ _ rfl,
   by rw [c3_error_propagation.2.2.2.2.2 (some "key") (.str "oops") none rfl]; rfl⟩

/-- C4, counterexample: a result with price abc, which is neither N/A nor
parseable as a decimal (first two conjuncts), is not excluded when no
ceiling is supplied: the short-circuit on line 115 never reaches the float
call, so the record is returned with the raw text in its display price. -/
theorem c4_counterexample :
    pyIsNAStr (.str "abc") = false
    ∧ pyFloatJson (.str "abc") = .error .valueError
    ∧ find_etsy_items (some "k")
        (.ok (.obj [("results",
          .arr [.obj [("title", .str "T"), ("price", .str "abc"), ("url", .str "u")]])]))
        none
        = .ok [⟨.str "T", "$abc", .str "u", .str "N/A"⟩] :=
  ⟨rfl, rfl, rfl⟩

/-- C4 (amended): the Etsy extractor parses a price as a decimal only when a
ceiling was supplied and the price is not the N/A sentinel (conjuncts 1-2:
with no ceiling the test is constantly true, and under a ceiling the N/A
sentinel short-circuits to false); the only exceptions the ceiling test can
raise are TypeError and ValueError (3), and with a ceiling such a failure
skips the item with a logged warning rather than crashing (4); with no
ceiling the item is included with the raw value in its display price (5). -/
theorem c4_nonnumeric_price :
    (∀ price : Json, etsyInclude none price = .ok true)
    ∧ (∀ (m : ℚ) (price : Json), pyIsNAStr price = true →
        etsyInclude (some m) price = .ok false)
    ∧ (∀ (mp : Option ℚ) (price : Json) (e : PyError), etsyInclude mp price = .error e →
        e = .typeError ∨ e = .valueError)
    ∧ (∀ (m : ℚ) (it t pr l d : Json) (e : PyError),
        etsyParseItem it = .ok (t, pr, l, d) →
        etsyInclude (some m) pr = .error e →
        processEtsyItem (some m) it = .ok none)
    ∧ (∀ (it t pr l d : Json),
        etsyParseItem it = .ok (t, pr, l, d) →
        processEtsyItem none it = .ok (some ⟨t, "$" ++ pyStr pr, l, d⟩)) := by
  refine ⟨fun price => rfl, ?_, fun mp price e h => etsyInclude_error h, ?_, ?_⟩
  · intro m price hna
    simp [etsyInclude, hna]
  · intro m it t pr l d e hp hi
    unfold processEtsyItem
    rw [hp]
    rcases etsyInclude_error hi with he | he <;> subst he <;> simp [hi]
  · intro it t pr l d hp
    exact (processEtsyItem_some_iff_include hp).mpr rfl

/-- C4 witness: the amended theorem applied to the abc-priced result: with
ceiling 10 it is skipped without an exception, with no ceiling it is
included. -/
theorem c4_nonnumeric_price_witness :
    processEtsyItem (some 10)
      (.obj [("title", .str "T"), ("price", .str "abc"), ("url", .str "u")]) = .ok none
    ∧ processEtsyItem none
        (.obj [("title", .str "T"), ("price", .str "abc"), ("url", .str "u")])
        = .ok (some ⟨.str "T", "$abc", .str "u", .str "N/A"⟩) :=
  ⟨c4_nonnumeric_price.2.2.2.1 10
      (.obj [("title", .str "T"), ("price", .str "abc"), ("url", .str "u")])
      (.str "T") (.str "abc") (.str "u") (.str "N/A") .valueError rfl rfl,
   c4_nonnumeric_price.2.2.2.2
      (.obj [("title", .str "T"), ("price", .str "abc"), ("url", .str "u")])
      (.str "T") (.str "abc") (.str "u") (.str "N/A") rfl⟩

/-- C5: with the Etsy credential unset the Etsy extractor returns the empty
sequence for every fetch outcome and every ceiling — since the result does
not depend on the fetch outcome, the fetch layer is never consulted, which
is how the embedding expresses that no network request is attempted (the
error log line is outside the functional model) — and the eBay extractor is
independent of the credential: its body never reads the environment. -/
theorem c5_missing_credential :
    (∀ (fetched : Except FetchError Json) (mp : Option ℚ),
        find_etsy_items none fetched mp = .ok [])
    ∧ (∀ (k k2 : Option String) (fetched : Except FetchError (List EbayBlock))
        (mp : Option ℚ),
        find_ebay_items k fetched mp = find_ebay_items k2 fetched mp) :=
  ⟨fun _ _ => rfl, fun _ _ _ _ => rfl⟩

/-- C6: the scope exit of the DatabaseManager commits the accumulated writes
of the session unconditionally: whether or not an exception reached the
exit, the pending rows become durable and the transaction is left empty
(and on the exception path the failure is also logged). -/
theorem c6_unconditional_commit :
    ∀ (excOccurred : Bool) (s : Session),
      (databaseManagerExit excOccurred s).committed = s.committed ++ s.pending
      ∧ (databaseManagerExit excOccurred s).pending = []
      ∧ (databaseManagerExit true s).log = s.log ++ ["Database operation failed"] := by
  intro exc s
  cases exc <;> exact ⟨rfl, rfl, rfl⟩

/-- C7: schema creation is idempotent.  For every starting store the setup
statement succeeds, running it again on the result succeeds and leaves the
store unchanged, and the number of listings tables in the result is one when
none existed and unchanged otherwise — no duplicate table is ever created. -/
theorem c7_schema_idempotent :
    ∀ db : Database, ∃ db2, setup_database db = .ok db2
      ∧ setup_database db2 = .ok db2
      ∧ db2.tables.countP (fun t => t.1 == "listings")
          = max (db.tables.countP (fun t => t.1 == "listings")) 1 := by
  intro db
  by_cases h : db.tables.any (fun t => t.1 == "listings") = true
  · refine ⟨db, ?_, ?_, ?_⟩
    · simp [setup_database, sqliteCreateTable, h]
    · simp [setup_database, sqliteCreateTable, h]
    · have hpos : 0 < db.tables.countP (fun t => t.1 == "listings") := by
        rw [List.countP_pos_iff]
        obtain ⟨x, hx, hpx⟩ := List.any_eq_true.mp h
        exact ⟨x, hx, hpx⟩
      omega
  · rw [Bool.not_eq_true] at h
    refine ⟨⟨db.tables ++ [("listings", listingsColumns)]⟩, ?_, ?_, ?_⟩
    · simp [setup_database, sqliteCreateTable, h]
    · simp [setup_database, sqliteCreateTable, List.any_append]
    · have h0 : db.tables.countP (fun t => t.1 == "listings") = 0 := by
        rw [List.countP_eq_zero]
        intro a ha
        have := List.any_eq_false.mp (by rw [h]) a ha
        simpa using this
      simp [List.countP_append, h0]

/-- C8, counterexample: a title node whose text is empty still counts as a
successful extraction — get_text raises nothing on an existing node — so the
eBay extractor returns a record whose title is the empty string. -/
theorem c8_counterexample :
    find_ebay_items none
      (.ok [⟨some "", none, some (some "http://x/9"), none⟩]) none
      = .ok [⟨"", "N/A", "http://x/9", "N/A"⟩] := rfl

/-- C8 (amended): the title field is always present — every eBay record
comes from a block whose title node exists and carries its stripped text,
and every Etsy record carries the title field of its originating result
object, defaulting to the string N/A when the field is missing — but it may
be the empty string when the source supplies empty title text. -/
theorem c8_title_provenance :
    (∀ (k : Option String) (mp : Option ℚ) (bs : List EbayBlock)
        (items : List EbayItem) (r : EbayItem),
        find_ebay_items k (.ok bs) mp = .ok items → r ∈ items →
        ∃ b ∈ bs, ∃ t, b.titleText = some t ∧ r.title = pyStrip t)
    ∧ (∀ (k : Option String) (data : Json) (mp : Option ℚ)
        (items : List EtsyItem) (r : EtsyItem),
        find_etsy_items k (.ok data) mp = .ok items → r ∈ items →
        ∃ elems it fs, etsyResults data = .ok elems ∧ it ∈ elems ∧ it = .obj fs ∧
          r.title = (jlookup fs "title").getD (.str "N/A")) := by
  constructor
  · intro k mp bs items r h hr
    rw [find_ebay_items_filterMap h] at hr
    obtain ⟨b, hb, hfb⟩ := List.mem_filterMap.mp hr
    cases hp : processEbayBlock mp b with
    | error e => rw [hp] at hfb; exact Option.noConfusion hfb
    | ok o =>
      rw [hp] at hfb
      have ho : o = some r := hfb
      subst ho
      obtain ⟨p?, hparse, _⟩ := processEbayBlock_some_exists hp
      obtain ⟨t, ht, htitle⟩ := ebayParseBlock_title hparse
      exact ⟨b, hb, t, ht, htitle⟩
  · intro k data mp items r h hr
    cases hk : pyFalsyKey k with
    | true =>
      unfold find_etsy_items at h
      rw [hk] at h
      simp only [if_true] at h
      injection h with h
      rw [← h] at hr
      exact absurd hr (List.not_mem_nil r)
    | false =>
      obtain ⟨elems, her, hfm⟩ := find_etsy_items_filterMap hk h
      rw [hfm] at hr
      obtain ⟨it, hit, hfit⟩ := List.mem_filterMap.mp hr
      cases hp : processEtsyItem mp it with
      | error e => rw [hp] at hfit; exact Option.noConfusion hfit
      | ok o =>
        rw [hp] at hfit
        have ho : o = some r := hfit
        subst ho
        obtain ⟨fs, hobj, htitle, _⟩ := processEtsyItem_some_exists hp
        exact ⟨elems, it, fs, her, hit, hobj, htitle⟩

/-- C8 witness: the eBay half of the amended theorem applied to a concrete
extraction whose single record has the stripped text of its block's title
node. -/
theorem c8_title_provenance_witness :
    ∃ b ∈ [(⟨some " Vintage Lamp ", none, some (some "u"), none⟩ : EbayBlock)],
      ∃ t, b.titleText = some t
        ∧ (⟨"Vintage Lamp", "N/A", "u", "N/A"⟩ : EbayItem).title = pyStrip t :=
  c8_title_provenance.1 none none
    [⟨some " Vintage Lamp ", none, some (some "u"), none⟩]
    [⟨"Vintage Lamp", "N/A", "u", "N/A"⟩]
    ⟨"Vintage Lamp", "N/A", "u", "N/A"⟩
    rfl (List.mem_singleton.mpr rfl)

/-- C9: the worked example of section 8 of the specification: a single Mug
result with price 12 and no ceiling yields exactly one record, with the
dollar sign prefixed to the raw price value and the description defaulted
to N/A. -/
theorem c9_etsy_example :
    find_etsy_items (some "key")
      (.ok (.obj [("results",
        .arr [.obj [("title", .str "Mug"), ("price", .str "12"), ("url", .str "http://y/2")]])]))
      none
      = .ok [⟨.str "Mug", "$12", .str "http://y/2", .str "N/A"⟩] := rfl

/-- C10: both extractors preserve source order: a successful eBay extraction
equals a filterMap of the per-block outcome over the blocks in document
order, and a successful Etsy extraction equals a filterMap of the per-item
outcome over the iterated results sequence; a filterMap keeps elements in
the order of its input. -/
theorem c10_source_order :
    (∀ (k : Option String) (mp : Option ℚ) (bs : List EbayBlock) (items : List EbayItem),
        find_ebay_items k (.ok bs) mp = .ok items →
        items = bs.filterMap (fun b =>
          match processEbayBlock mp b with
          | .ok r => r
          | .error _ => none))
    ∧ (∀ (k : Option String) (data : Json) (mp : Option ℚ) (items : List EtsyItem),
        pyFalsyKey k = false →
        find_etsy_items k (.ok data) mp = .ok items →
        ∃ elems, etsyResults data = .ok elems ∧
          items = elems.filterMap (fun it =>
            match processEtsyItem mp it with
            | .ok r => r
            | .error _ => none)) :=
  ⟨fun _ _ _ _ h => find_ebay_items_filterMap h,
   fun _ _ _ _ hk h => find_etsy_items_filterMap hk h⟩

/-- C10 witness: the theorem applied to a three-block document whose middle
block is skipped; the two produced records keep the document order of their
blocks. -/
theorem c10_source_order_witness :
    [(⟨"A", "N/A", "a", "N/A"⟩ : EbayItem), ⟨"B", "N/A", "b", "N/A"⟩]
      = [(⟨some "A", none, some (some "a"), none⟩ : EbayBlock),
         ⟨none, none, none, none⟩,
         ⟨some "B", none, some (some "b"), none⟩].filterMap
          (fun b => match processEbayBlock none b with
            | .ok r => r
            | .error _ => none) :=
  c10_source_order.1 none none
    [⟨some "A", none, some (some "a"), none⟩,
     ⟨none, none, none, none⟩,
     ⟨some "B", none, some (some "b"), none⟩]
    [⟨"A", "N/A", "a", "N/A"⟩, ⟨"B", "N/A", "b", "N/A"⟩]
    rfl
